import Mathlib

/-
  Verification of the KNOCK command handler of ircd-hybrid
  (src/modules/m_knock.c), as a shallow embedding.

  The handler is a synchronous function of its inputs: the channel
  configuration, the current time, the ban predicate, the channel table,
  the requesting client and the channel-name parameter.  Its side effects
  (numeric replies to the sender, the NOTICE to the channel operators,
  the server propagation, and the two timestamp mutations) are returned
  explicitly in a `KnockOutput` record.
-/

namespace MKnock

/-- The numeric replies of the daemon.  The seven numerics that m_knock.c
uses are named constructors; `other` stands for every remaining numeric
of the daemon (defined in numeric.h, outside the excerpt). -/
inductive Numeric where
  | ERR_NEEDMOREPARAMS
  | ERR_NOSUCHCHANNEL
  | ERR_KNOCKONCHAN
  | ERR_CHANOPEN
  | ERR_CANNOTSENDTOCHAN
  | ERR_TOOMANYKNOCK
  | RPL_KNOCKDLVR
  | other (code : Nat)
  deriving DecidableEq, Repr

/-- One `sendto_one_numeric` call: the numeric, its channel/command
argument, and the extra tag argument ("user" / "channel") that
ERR_TOOMANYKNOCK carries. -/
structure Reply where
  numeric : Numeric
  arg : String
  tag : Option String
  deriving DecidableEq, Repr

/-- Channel mode state (`struct Mode`): the MODE_INVITEONLY and
MODE_PRIVATE bits of `mode.mode`, the key string, and the user limit. -/
structure Mode where
  inviteOnly : Bool
  privateMode : Bool
  key : String
  limit : Nat
  deriving DecidableEq, Repr

/-- `struct Channel`: the name, the mode, the member list (client names;
`dlink_list_length(&chptr->members)` is its length) and `last_knock`. -/
structure Channel where
  chname : String
  mode : Mode
  members : List String
  last_knock : Nat
  deriving DecidableEq, Repr

/-- `struct Client`: identifying strings, whether the client is locally
connected (`MyClient`), and `localClient->last_knock`. -/
structure Client where
  name : String
  username : String
  host : String
  myClient : Bool
  last_knock : Nat
  deriving DecidableEq, Repr

/-- The two knock-related fields of `ConfigChannel`. -/
structure ConfigChannelT where
  knock_delay : Nat
  knock_delay_channel : Nat
  deriving DecidableEq, Repr

/-- `EmptyString(x)`: the pointer is NULL or points at the empty string. -/
def EmptyString (s : Option String) : Bool :=
  match s with
  | none => true
  | some str => str == ""

/-- `hash_find_channel`: look a channel up by name in the channel table. -/
def hash_find_channel : List Channel → String → Option Channel
  | [], _ => none
  | c :: rest, name => if c.chname == name then some c else hash_find_channel rest name

/-- `IsMember(source_p, chptr)`: the client is on the channel. -/
def IsMember (source_p : Client) (chptr : Channel) : Bool :=
  chptr.members.contains source_p.name

/-- The "closed channel" condition of m_knock.c line 83:
`(chptr->mode.mode & MODE_INVITEONLY) || (*chptr->mode.key) ||
 (chptr->mode.limit && dlink_list_length(&chptr->members) >= chptr->mode.limit)`. -/
def knock_closed (chptr : Channel) : Bool :=
  chptr.mode.inviteOnly || !(chptr.mode.key == "") ||
    (chptr.mode.limit != 0 && decide (chptr.members.length ≥ chptr.mode.limit))

/-- `PrivateChannel(chptr)`: the MODE_PRIVATE bit is set. -/
def PrivateChannel (chptr : Channel) : Bool :=
  chptr.mode.privateMode

/-- Modelled from the spec: the CAP_KNOCK capability bit of s_serv.h is
not part of the excerpt; its concrete value is irrelevant here. -/
def CAP_KNOCK : Nat := 1

/-- `NOCAPS`. -/
def NOCAPS : Nat := 0

/-- The `sendto_channel_local(CHFL_CHANOP, ...)` NOTICE naming the
knocking client. -/
structure OpNotice where
  chname : String
  nick : String
  username : String
  host : String
  deriving DecidableEq, Repr

/-- One `sendto_server(client_p, CAP_KNOCK, NOCAPS, ":%s KNOCK %s", ...)`
call: the capability masks and the propagated source id and channel. -/
structure ServerProp where
  caps : Nat
  nocaps : Nat
  sourceId : String
  chname : String
  deriving DecidableEq, Repr

/-- The observable result of one m_knock invocation: the numerics sent to
the sender (in order), the operator notices, the server propagations, and
the channel table and source client after the call. -/
structure KnockOutput where
  replies : List Reply
  notices : List OpNotice
  props : List ServerProp
  channels : List Channel
  source : Client
  deriving DecidableEq, Repr

/-- Writing an updated channel back into the channel table (the C code
mutates `chptr` in place inside the hash table). -/
def replaceChannel (channels : List Channel) (c : Channel) : List Channel :=
  channels.map (fun x => if x.chname == c.chname then c else x)

/-- A rejection branch: one numeric to the sender, an early return,
no other effect. -/
def knock_reject (channels : List Channel) (source_p : Client) (r : Reply) : KnockOutput :=
  { replies := [r]
  , notices := []
  , props := []
  , channels := channels
  , source := source_p }

/-- The shared success tail of m_knock (lines 126-136):
`chptr->last_knock = CurrentTime`, the CHFL_CHANOP NOTICE, and the
CAP_KNOCK server propagation.  `ack` is whatever was already sent to the
sender (RPL_KNOCKDLVR for local clients, nothing for remote ones). -/
def knock_deliver (now : Nat) (channels : List Channel) (chptr : Channel)
    (source_p : Client) (ack : List Reply) : KnockOutput :=
  { replies := ack
  , notices := [⟨chptr.chname, source_p.name, source_p.username, source_p.host⟩]
  , props := [⟨CAP_KNOCK, NOCAPS, source_p.name, chptr.chname⟩]
  , channels := replaceChannel channels { chptr with last_knock := now }
  , source := source_p }

/-- m_knock (m_knock.c lines 58-138), with the external state passed
explicitly: configuration, `CurrentTime`, the `is_banned` predicate
(defined in channel.c, outside the excerpt), the channel table, the
source client and parv[1]. -/
def m_knock (conf : ConfigChannelT) (now : Nat)
    (is_banned : Channel → Client → Bool)
    (channels : List Channel) (source_p : Client)
    (parv1 : Option String) : KnockOutput :=
  if EmptyString parv1 then
    knock_reject channels source_p ⟨.ERR_NEEDMOREPARAMS, "KNOCK", none⟩
  else
    match hash_find_channel channels (parv1.getD ("")) with
    | none =>
      knock_reject channels source_p ⟨.ERR_NOSUCHCHANNEL, parv1.getD (""), none⟩
    | some chptr =>
      if IsMember source_p chptr then
        knock_reject channels source_p ⟨.ERR_KNOCKONCHAN, chptr.chname, none⟩
      else if !(knock_closed chptr) then
        knock_reject channels source_p ⟨.ERR_CHANOPEN, chptr.chname, none⟩
      else if source_p.myClient then
        if PrivateChannel chptr || is_banned chptr source_p then
          knock_reject channels source_p ⟨.ERR_CANNOTSENDTOCHAN, chptr.chname, none⟩
        else if source_p.last_knock + conf.knock_delay > now then
          knock_reject channels source_p ⟨.ERR_TOOMANYKNOCK, chptr.chname, some ("user")⟩
        else if chptr.last_knock + conf.knock_delay_channel > now then
          knock_reject channels source_p ⟨.ERR_TOOMANYKNOCK, chptr.chname, some ("channel")⟩
        else
          knock_deliver now channels chptr { source_p with last_knock := now }
            [⟨.RPL_KNOCKDLVR, chptr.chname, none⟩]
      else
        knock_deliver now channels chptr source_p []

/-- The handler slots of a `struct Message` entry. -/
inductive HandlerRef where
  | m_unregistered
  | m_knock
  | m_ignore
  deriving DecidableEq, Repr

/-- `struct Message` (the fields the excerpt determines: the command
name, the minimum parameter count, and the six handler slots; the counter
fields and the MAXPARA / MFLG_SLOW constants live outside the excerpt). -/
structure Message where
  cmd : String
  args_required : Nat
  handlers : List HandlerRef
  deriving DecidableEq, Repr

/-- `knock_msgtab` (m_knock.c lines 140-144). -/
def knock_msgtab : Message :=
  { cmd := "KNOCK"
  , args_required := 2
  , handlers := [.m_unregistered, .m_knock, .m_knock, .m_ignore, .m_knock, .m_ignore] }

/-- The daemon registries that module_init / module_exit touch: the
message table, the capability list and the ISUPPORT list. -/
structure DaemonTables where
  msgTable : List Message
  capabilities : List (String × Nat)
  isupport : List (String × Option String × Int)
  deriving DecidableEq, Repr

/-- Remove the first list element satisfying `p`. -/
def delete_first {α : Type} (p : α → Bool) : List α → List α
  | [] => []
  | x :: xs => if p x then xs else x :: delete_first p xs

/-- Modelled from the spec: `mod_add_cmd` (modules subsystem, outside the
excerpt) registers a message-table entry. -/
def mod_add_cmd (m : Message) (t : DaemonTables) : DaemonTables :=
  { t with msgTable := m :: t.msgTable }

/-- Modelled from the spec: `mod_del_cmd` removes the registration of a
message-table entry (matched by command name). -/
def mod_del_cmd (m : Message) (t : DaemonTables) : DaemonTables :=
  { t with msgTable := delete_first (fun x => x.cmd == m.cmd) t.msgTable }

/-- Modelled from the spec: `add_capability` registers a named capability
flag. -/
def add_capability (name : String) (cap : Nat) (t : DaemonTables) : DaemonTables :=
  { t with capabilities := (name, cap) :: t.capabilities }

/-- Modelled from the spec: `delete_capability` removes the capability
registered under the given name. -/
def delete_capability (name : String) (t : DaemonTables) : DaemonTables :=
  { t with capabilities := delete_first (fun x => x.1 == name) t.capabilities }

/-- Modelled from the spec: `add_isupport` registers an ISUPPORT token. -/
def add_isupport (name : String) (options : Option String) (n : Int)
    (t : DaemonTables) : DaemonTables :=
  { t with isupport := (name, options, n) :: t.isupport }

/-- Modelled from the spec: `delete_isupport` removes the ISUPPORT token
registered under the given name. -/
def delete_isupport (name : String) (t : DaemonTables) : DaemonTables :=
  { t with isupport := delete_first (fun x => x.1 == name) t.isupport }

/-- module_init (m_knock.c lines 146-152). -/
def module_init (t : DaemonTables) : DaemonTables :=
  add_isupport ("KNOCK") none (-1) (add_capability ("KNOCK") CAP_KNOCK (mod_add_cmd knock_msgtab t))

/-- module_exit (m_knock.c lines 154-160). -/
def module_exit (t : DaemonTables) : DaemonTables :=
  delete_isupport ("KNOCK") (delete_capability ("KNOCK") (mod_del_cmd knock_msgtab t))

/-- A successful lookup returns a channel bearing the looked-up name. -/
theorem hash_find_channel_chname {channels : List Channel} {name : String} {c : Channel}
    (h : hash_find_channel channels name = some c) : c.chname = name := by
  induction channels with
  | nil => simp [hash_find_channel] at h
  | cons x xs ih =>
    by_cases hx : x.chname = name
    · have hc : x = c := by simpa [hash_find_channel, hx] using h
      rw [← hc]
      exact hx
    · simp [hash_find_channel, hx] at h
      exact ih h

/-- Looking up the name of a channel just written back by `replaceChannel`
returns the written channel. -/
theorem hash_find_replaceChannel {channels : List Channel} {name : String} {c : Channel}
    (c' : Channel) (h : hash_find_channel channels name = some c)
    (hn : c'.chname = c.chname) :
    hash_find_channel (replaceChannel channels c') name = some c' := by
  have hcn : c.chname = name := hash_find_channel_chname h
  induction channels with
  | nil => simp [hash_find_channel] at h
  | cons x xs ih =>
    by_cases hx : x.chname = name
    · have hc : x = c := by simpa [hash_find_channel, hx] using h
      subst hc
      simp [replaceChannel, hash_find_channel, hn, hcn, hx]
    · have h' : hash_find_channel xs name = some c := by
        simpa [hash_find_channel, hx] using h
      have hxc : ¬(x.chname = c'.chname) := by
        rw [hn, hcn]
        exact hx
      simpa [replaceChannel, hash_find_channel, hxc, hx] using ih h'

/-- The Bool condition of m_knock.c line 83, as a proposition. -/
theorem knock_closed_iff_prop (chptr : Channel) :
    knock_closed chptr = true ↔
      (chptr.mode.inviteOnly = true ∨ chptr.mode.key ≠ "" ∨
        (chptr.mode.limit ≠ 0 ∧ chptr.members.length ≥ chptr.mode.limit)) := by
  simp [knock_closed]
  tauto

/-- Every m_knock invocation either takes one of the six rejection early
returns, or reaches the shared success tail (with the RPL_KNOCKDLVR
acknowledgement exactly when the sender is local). -/
theorem m_knock_shape (conf : ConfigChannelT) (now : Nat)
    (is_banned : Channel → Client → Bool) (channels : List Channel)
    (source_p : Client) (parv1 : Option String) :
    (∃ r : Reply,
        m_knock conf now is_banned channels source_p parv1
          = knock_reject channels source_p r ∧
        (r.numeric = Numeric.ERR_NEEDMOREPARAMS ∨ r.numeric = Numeric.ERR_NOSUCHCHANNEL ∨
         r.numeric = Numeric.ERR_KNOCKONCHAN ∨ r.numeric = Numeric.ERR_CHANOPEN ∨
         r.numeric = Numeric.ERR_CANNOTSENDTOCHAN ∨ r.numeric = Numeric.ERR_TOOMANYKNOCK)) ∨
    (∃ chptr src2 ack,
        m_knock conf now is_banned channels source_p parv1
          = knock_deliver now channels chptr src2 ack ∧
        (ack = [] ∨ ack = [⟨Numeric.RPL_KNOCKDLVR, chptr.chname, none⟩])) := by
  unfold m_knock
  split
  · exact Or.inl ⟨_, rfl, Or.inl rfl⟩
  · split
    · exact Or.inl ⟨_, rfl, Or.inr (Or.inl rfl)⟩
    · split
      · exact Or.inl ⟨_, rfl, Or.inr (Or.inr (Or.inl rfl))⟩
      · split
        · exact Or.inl ⟨_, rfl, Or.inr (Or.inr (Or.inr (Or.inl rfl)))⟩
        · split
          · split
            · exact Or.inl ⟨_, rfl, Or.inr (Or.inr (Or.inr (Or.inr (Or.inl rfl))))⟩
            · split
              · exact Or.inl ⟨_, rfl, Or.inr (Or.inr (Or.inr (Or.inr (Or.inr rfl))))⟩
              · split
                · exact Or.inl ⟨_, rfl, Or.inr (Or.inr (Or.inr (Or.inr (Or.inr rfl))))⟩
                · exact Or.inr ⟨_, _, _, rfl, Or.inr rfl⟩
          · exact Or.inr ⟨_, _, _, rfl, Or.inl rfl⟩

/-- C1: the KNOCK handler checks its preconditions in exactly this order,
stopping at the first failure with the corresponding numeric: missing
parameter gives ERR_NEEDMOREPARAMS; then an unknown channel gives
ERR_NOSUCHCHANNEL; then the sender already being a member gives
ERR_KNOCKONCHAN; then a channel that is not closed gives ERR_CHANOPEN. -/
theorem knock_precondition_order (conf : ConfigChannelT) (now : Nat)
    (is_banned : Channel → Client → Bool) (channels : List Channel)
    (source_p : Client) (parv1 : Option String) :
    (EmptyString parv1 = true →
      (m_knock conf now is_banned channels source_p parv1).replies
        = [⟨Numeric.ERR_NEEDMOREPARAMS, "KNOCK", none⟩]) ∧
    (∀ name, parv1 = some name → EmptyString parv1 = false →
      hash_find_channel channels name = none →
      (m_knock conf now is_banned channels source_p parv1).replies
        = [⟨Numeric.ERR_NOSUCHCHANNEL, name, none⟩]) ∧
    (∀ name chptr, parv1 = some name → EmptyString parv1 = false →
      hash_find_channel channels name = some chptr →
      IsMember source_p chptr = true →
      (m_knock conf now is_banned channels source_p parv1).replies
        = [⟨Numeric.ERR_KNOCKONCHAN, chptr.chname, none⟩]) ∧
    (∀ name chptr, parv1 = some name → EmptyString parv1 = false →
      hash_find_channel channels name = some chptr →
      IsMember source_p chptr = false → knock_closed chptr = false →
      (m_knock conf now is_banned channels source_p parv1).replies
        = [⟨Numeric.ERR_CHANOPEN, chptr.chname, none⟩]) := by
  refine ⟨?_, ?_, ?_, ?_⟩
  · intro h
    simp [m_knock, h, knock_reject]
  · intro name hp hne hfind
    subst hp
    simp [m_knock, hne, hfind, knock_reject]
  · intro name chptr hp hne hfind hmem
    subst hp
    simp [m_knock, hne, hfind, hmem, knock_reject]
  · intro name chptr hp hne hfind hmem hclosed
    subst hp
    simp [m_knock, hne, hfind, hmem, hclosed, knock_reject]

/-- Witness for C1: a concrete invocation with a missing parameter gets
exactly ERR_NEEDMOREPARAMS. -/
theorem knock_precondition_order_witness :
    (m_knock ⟨0, 0⟩ 0 (fun _ _ => false) [] ⟨("n1"), "u", "h", true, 0⟩ none).replies
      = [⟨Numeric.ERR_NEEDMOREPARAMS, "KNOCK", none⟩] :=
  (knock_precondition_order ⟨0, 0⟩ 0 (fun _ _ => false) []
      ⟨("n1"), "u", "h", true, 0⟩ none).1 (by decide)

/-- C9: module_exit removes exactly the three registrations (message-table
entry, KNOCK capability, KNOCK ISUPPORT token) that module_init added, so
module_init followed by module_exit leaves the three registries
unchanged. -/
theorem module_exit_undoes_module_init (t : DaemonTables) :
    module_exit (module_init t) = t := by
  cases t with
  | mk msgTable capabilities isupport =>
    simp [module_init, module_exit, mod_add_cmd, mod_del_cmd, add_capability,
      delete_capability, add_isupport, delete_isupport, delete_first, knock_msgtab]

/-- C10: a NULL parv[1] and an empty-string parv[1] behave identically:
ERR_NEEDMOREPARAMS is sent, the handler terminates with no other effect,
and no channel lookup happens (the replies are the same for any channel
table). -/
theorem knock_empty_param (conf : ConfigChannelT) (now : Nat)
    (is_banned : Channel → Client → Bool)
    (channels channels2 : List Channel) (source_p : Client)
    (parv1 : Option String) (h : parv1 = none ∨ parv1 = some ("")) :
    m_knock conf now is_banned channels source_p parv1
      = knock_reject channels source_p ⟨Numeric.ERR_NEEDMOREPARAMS, "KNOCK", none⟩ ∧
    (m_knock conf now is_banned channels source_p parv1).replies
      = (m_knock conf now is_banned channels2 source_p parv1).replies := by
  rcases h with h | h <;> subst h <;>
    simp [m_knock, EmptyString, knock_reject]

/-- Witness for C10: an empty-string parameter at a concrete invocation,
with two different channel tables giving the same replies. -/
theorem knock_empty_param_witness :
    m_knock ⟨1, 1⟩ 2 (fun _ _ => false)
        [⟨("#w10"), ⟨true, false, "", 0⟩, [], 0⟩] ⟨("n10"), "u", "h", true, 0⟩ (some (""))
      = knock_reject [⟨("#w10"), ⟨true, false, "", 0⟩, [], 0⟩] ⟨("n10"), "u", "h", true, 0⟩
          ⟨Numeric.ERR_NEEDMOREPARAMS, "KNOCK", none⟩ ∧
    (m_knock ⟨1, 1⟩ 2 (fun _ _ => false)
        [⟨("#w10"), ⟨true, false, "", 0⟩, [], 0⟩] ⟨("n10"), "u", "h", true, 0⟩
        (some (""))).replies
      = (m_knock ⟨1, 1⟩ 2 (fun _ _ => false) [] ⟨("n10"), "u", "h", true, 0⟩
          (some (""))).replies :=
  knock_empty_param ⟨1, 1⟩ 2 (fun _ _ => false)
    [⟨("#w10"), ⟨true, false, "", 0⟩, [], 0⟩] [] ⟨("n10"), "u", "h", true, 0⟩ (some (""))
    (Or.inr rfl)

/-- C2: for a local sender past the earlier checks, the user rate limit is
checked first (ERR_TOOMANYKNOCK tagged "user"), then the channel rate
limit (ERR_TOOMANYKNOCK tagged "channel"); when both intervals have
elapsed, the sender's and the channel's last-knock timestamps are set to
the current time and RPL_KNOCKDLVR acknowledges the sender. -/
theorem knock_rate_limits (conf : ConfigChannelT) (now : Nat)
    (is_banned : Channel → Client → Bool) (channels : List Channel)
    (source_p : Client) (name : String) (chptr : Channel)
    (hne : EmptyString (some name) = false)
    (hfind : hash_find_channel channels name = some chptr)
    (hmem : IsMember source_p chptr = false)
    (hclosed : knock_closed chptr = true)
    (hlocal : source_p.myClient = true)
    (hpb : (PrivateChannel chptr || is_banned chptr source_p) = false) :
    (source_p.last_knock + conf.knock_delay > now →
      (m_knock conf now is_banned channels source_p (some name)).replies
        = [⟨Numeric.ERR_TOOMANYKNOCK, chptr.chname, some ("user")⟩]) ∧
    (¬(source_p.last_knock + conf.knock_delay > now) →
      chptr.last_knock + conf.knock_delay_channel > now →
      (m_knock conf now is_banned channels source_p (some name)).replies
        = [⟨Numeric.ERR_TOOMANYKNOCK, chptr.chname, some ("channel")⟩]) ∧
    (¬(source_p.last_knock + conf.knock_delay > now) →
      ¬(chptr.last_knock + conf.knock_delay_channel > now) →
      (m_knock conf now is_banned channels source_p (some name)).source.last_knock = now ∧
      hash_find_channel
          (m_knock conf now is_banned channels source_p (some name)).channels name
        = some { chptr with last_knock := now } ∧
      (m_knock conf now is_banned channels source_p (some name)).replies
        = [⟨Numeric.RPL_KNOCKDLVR, chptr.chname, none⟩]) := by
  refine ⟨?_, ?_, ?_⟩
  · intro h
    simp [m_knock, hne, hfind, hmem, hclosed, hlocal, hpb, h, knock_reject]
  · intro h1 h2
    simp [m_knock, hne, hfind, hmem, hclosed, hlocal, hpb, h1, h2, knock_reject]
  · intro h1 h2
    have hrep := hash_find_replaceChannel ({ chptr with last_knock := now }) hfind rfl
    refine ⟨?_, ?_, ?_⟩
    · simp [m_knock, hne, hfind, hmem, hclosed, hlocal, hpb, h1, h2, knock_deliver]
    · simpa [m_knock, hne, hfind, hmem, hclosed, hlocal, hpb, h1, h2, knock_deliver] using hrep
    · simp [m_knock, hne, hfind, hmem, hclosed, hlocal, hpb, h1, h2, knock_deliver]

/-- Witness for C2: a concrete local knock with both intervals elapsed
updates both timestamps and is acknowledged with RPL_KNOCKDLVR. -/
theorem knock_rate_limits_witness :
    (m_knock ⟨3, 4⟩ 10 (fun _ _ => false) [⟨("#w2"), ⟨true, false, "", 0⟩, [], 1⟩]
        ⟨("n2"), "u", "h", true, 2⟩ (some ("#w2"))).source.last_knock = 10 ∧
    hash_find_channel (m_knock ⟨3, 4⟩ 10 (fun _ _ => false)
        [⟨("#w2"), ⟨true, false, "", 0⟩, [], 1⟩] ⟨("n2"), "u", "h", true, 2⟩
        (some ("#w2"))).channels ("#w2")
      = some ⟨("#w2"), ⟨true, false, "", 0⟩, [], 10⟩ ∧
    (m_knock ⟨3, 4⟩ 10 (fun _ _ => false) [⟨("#w2"), ⟨true, false, "", 0⟩, [], 1⟩]
        ⟨("n2"), "u", "h", true, 2⟩ (some ("#w2"))).replies
      = [⟨Numeric.RPL_KNOCKDLVR, "#w2", none⟩] :=
  (knock_rate_limits ⟨3, 4⟩ 10 (fun _ _ => false)
      [⟨("#w2"), ⟨true, false, "", 0⟩, [], 1⟩] ⟨("n2"), "u", "h", true, 2⟩ ("#w2")
      ⟨("#w2"), ⟨true, false, "", 0⟩, [], 1⟩ (by decide) (by decide) (by decide)
      (by decide) rfl (by decide)).2.2 (by decide) (by decide)

/-- C3: every rejection sends exactly one numeric to the sender and has no
other effect: the channel table, the sender's timestamp, the operator
notices and the server propagation are untouched. -/
theorem knock_rejection_no_partial_effects (conf : ConfigChannelT) (now : Nat)
    (is_banned : Channel → Client → Bool) (channels : List Channel)
    (source_p : Client) (parv1 : Option String) :
    ∀ r ∈ (m_knock conf now is_banned channels source_p parv1).replies,
      r.numeric ≠ Numeric.RPL_KNOCKDLVR →
        (m_knock conf now is_banned channels source_p parv1).replies = [r] ∧
        (m_knock conf now is_banned channels source_p parv1).channels = channels ∧
        (m_knock conf now is_banned channels source_p parv1).source = source_p ∧
        (m_knock conf now is_banned channels source_p parv1).notices = [] ∧
        (m_knock conf now is_banned channels source_p parv1).props = [] := by
  intro r hr hne
  rcases m_knock_shape conf now is_banned channels source_p parv1 with
    ⟨r0, heq, -⟩ | ⟨chptr, src2, ack, heq, hack⟩
  · rw [heq] at hr ⊢
    have : r = r0 := by simpa [knock_reject] using hr
    subst this
    exact ⟨rfl, rfl, rfl, rfl, rfl⟩
  · rw [heq] at hr
    rcases hack with h | h <;> subst h
    · simp [knock_deliver] at hr
    · have : r = ⟨Numeric.RPL_KNOCKDLVR, chptr.chname, none⟩ := by
        simpa [knock_deliver] using hr
      subst this
      exact absurd rfl hne

/-- Witness for C3: a concrete rejected invocation (unknown channel). -/
theorem knock_rejection_no_partial_effects_witness :
    (m_knock ⟨1, 1⟩ 0 (fun _ _ => false) [] ⟨("n3"), "u", "h", true, 0⟩
        (some ("#w3"))).replies = [⟨Numeric.ERR_NOSUCHCHANNEL, "#w3", none⟩] ∧
    (m_knock ⟨1, 1⟩ 0 (fun _ _ => false) [] ⟨("n3"), "u", "h", true, 0⟩
        (some ("#w3"))).channels = [] ∧
    (m_knock ⟨1, 1⟩ 0 (fun _ _ => false) [] ⟨("n3"), "u", "h", true, 0⟩
        (some ("#w3"))).source = ⟨("n3"), "u", "h", true, 0⟩ ∧
    (m_knock ⟨1, 1⟩ 0 (fun _ _ => false) [] ⟨("n3"), "u", "h", true, 0⟩
        (some ("#w3"))).notices = [] ∧
    (m_knock ⟨1, 1⟩ 0 (fun _ _ => false) [] ⟨("n3"), "u", "h", true, 0⟩
        (some ("#w3"))).props = [] :=
  knock_rejection_no_partial_effects ⟨1, 1⟩ 0 (fun _ _ => false) []
    ⟨("n3"), "u", "h", true, 0⟩ (some ("#w3"))
    ⟨Numeric.ERR_NOSUCHCHANNEL, "#w3", none⟩ (by decide) (by decide)

/-- C4: every successful knock, local or remote, sets the channel's
last-knock timestamp to the current time, notices the channel operators
naming the knocking client, and propagates KNOCK to the servers with the
CAP_KNOCK capability. -/
theorem knock_success_effects (conf : ConfigChannelT) (now : Nat)
    (is_banned : Channel → Client → Bool) (channels : List Channel)
    (source_p : Client) (name : String) (chptr : Channel)
    (hne : EmptyString (some name) = false)
    (hfind : hash_find_channel channels name = some chptr)
    (hmem : IsMember source_p chptr = false)
    (hclosed : knock_closed chptr = true)
    (hlocal : source_p.myClient = true →
      ((PrivateChannel chptr || is_banned chptr source_p) = false ∧
       ¬(source_p.last_knock + conf.knock_delay > now) ∧
       ¬(chptr.last_knock + conf.knock_delay_channel > now))) :
    hash_find_channel
        (m_knock conf now is_banned channels source_p (some name)).channels name
      = some { chptr with last_knock := now } ∧
    (m_knock conf now is_banned channels source_p (some name)).notices
      = [⟨chptr.chname, source_p.name, source_p.username, source_p.host⟩] ∧
    (m_knock conf now is_banned channels source_p (some name)).props
      = [⟨CAP_KNOCK, NOCAPS, source_p.name, chptr.chname⟩] := by
  have hrep := hash_find_replaceChannel ({ chptr with last_knock := now }) hfind rfl
  cases hmy : source_p.myClient with
  | false =>
    exact ⟨by simpa [m_knock, hne, hfind, hmem, hclosed, hmy, knock_deliver] using hrep,
      by simp [m_knock, hne, hfind, hmem, hclosed, hmy, knock_deliver],
      by simp [m_knock, hne, hfind, hmem, hclosed, hmy, knock_deliver]⟩
  | true =>
    rcases hlocal hmy with ⟨hpb, h1, h2⟩
    exact ⟨by simpa [m_knock, hne, hfind, hmem, hclosed, hmy, hpb, h1, h2, knock_deliver]
        using hrep,
      by simp [m_knock, hne, hfind, hmem, hclosed, hmy, hpb, h1, h2, knock_deliver],
      by simp [m_knock, hne, hfind, hmem, hclosed, hmy, hpb, h1, h2, knock_deliver]⟩

/-- Witness for C4: a concrete successful local knock. -/
theorem knock_success_effects_witness :
    hash_find_channel (m_knock ⟨2, 2⟩ 9 (fun _ _ => false)
        [⟨("#w4"), ⟨false, false, "sesame", 0⟩, [], 3⟩] ⟨("n4"), "u4", "h4", true, 1⟩
        (some ("#w4"))).channels ("#w4")
      = some ⟨("#w4"), ⟨false, false, "sesame", 0⟩, [], 9⟩ ∧
    (m_knock ⟨2, 2⟩ 9 (fun _ _ => false) [⟨("#w4"), ⟨false, false, "sesame", 0⟩, [], 3⟩]
        ⟨("n4"), "u4", "h4", true, 1⟩ (some ("#w4"))).notices
      = [⟨"#w4", "n4", "u4", "h4"⟩] ∧
    (m_knock ⟨2, 2⟩ 9 (fun _ _ => false) [⟨("#w4"), ⟨false, false, "sesame", 0⟩, [], 3⟩]
        ⟨("n4"), "u4", "h4", true, 1⟩ (some ("#w4"))).props
      = [⟨CAP_KNOCK, NOCAPS, "n4", "#w4"⟩] :=
  knock_success_effects ⟨2, 2⟩ 9 (fun _ _ => false)
    [⟨("#w4"), ⟨false, false, "sesame", 0⟩, [], 3⟩] ⟨("n4"), "u4", "h4", true, 1⟩ ("#w4")
    ⟨("#w4"), ⟨false, false, "sesame", 0⟩, [], 3⟩ (by decide) (by decide) (by decide)
    (by decide) (by decide)

/-- C5: with the parameter, existence and membership checks passed, the
knock avoids the ERR_CHANOPEN rejection iff the channel is closed:
invite-only, or with a non-empty key, or with a nonzero user limit whose
member count has reached it. -/
theorem knock_chanopen_iff (conf : ConfigChannelT) (now : Nat)
    (is_banned : Channel → Client → Bool) (channels : List Channel)
    (source_p : Client) (name : String) (chptr : Channel)
    (hne : EmptyString (some name) = false)
    (hfind : hash_find_channel channels name = some chptr)
    (hmem : IsMember source_p chptr = false) :
    ((m_knock conf now is_banned channels source_p (some name)).replies
        ≠ [⟨Numeric.ERR_CHANOPEN, chptr.chname, none⟩]) ↔
      (chptr.mode.inviteOnly = true ∨ chptr.mode.key ≠ "" ∨
        (chptr.mode.limit ≠ 0 ∧ chptr.members.length ≥ chptr.mode.limit)) := by
  rw [← knock_closed_iff_prop]
  constructor
  · intro hno
    by_contra hcl
    have hcl' : knock_closed chptr = false := by
      cases hc : knock_closed chptr
      · rfl
      · exact absurd hc hcl
    exact hno (by simp [m_knock, hne, hfind, hmem, hcl', knock_reject])
  · intro hcl
    cases hmy : source_p.myClient with
    | false => simp [m_knock, hne, hfind, hmem, hcl, hmy, knock_deliver]
    | true =>
      by_cases hpb : (PrivateChannel chptr || is_banned chptr source_p) = true
      · simp [m_knock, hne, hfind, hmem, hcl, hmy, hpb, knock_reject]
      · have hpb' : (PrivateChannel chptr || is_banned chptr source_p) = false := by
          cases h : (PrivateChannel chptr || is_banned chptr source_p)
          · rfl
          · exact absurd h hpb
        by_cases h1 : source_p.last_knock + conf.knock_delay > now
        · simp [m_knock, hne, hfind, hmem, hcl, hmy, hpb', h1, knock_reject]
        · by_cases h2 : chptr.last_knock + conf.knock_delay_channel > now
          · simp [m_knock, hne, hfind, hmem, hcl, hmy, hpb', h1, h2, knock_reject]
          · simp [m_knock, hne, hfind, hmem, hcl, hmy, hpb', h1, h2, knock_deliver]

/-- Witness for C5: a concrete open channel (no invite-only bit, empty
key, no limit) does get ERR_CHANOPEN. -/
theorem knock_chanopen_iff_witness :
    (m_knock ⟨1, 1⟩ 0 (fun _ _ => false) [⟨("#w5"), ⟨false, false, "", 0⟩, [], 0⟩]
        ⟨("n5"), "u", "h", true, 0⟩ (some ("#w5"))).replies
      = [⟨Numeric.ERR_CHANOPEN, "#w5", none⟩] := by
  by_contra hno
  exact absurd ((knock_chanopen_iff ⟨1, 1⟩ 0 (fun _ _ => false)
      [⟨("#w5"), ⟨false, false, "", 0⟩, [], 0⟩] ⟨("n5"), "u", "h", true, 0⟩ ("#w5")
      ⟨("#w5"), ⟨false, false, "", 0⟩, [], 0⟩ (by decide) (by decide) (by decide)).mp hno)
    (by decide)

/-- C6: for a local sender past the existence, membership and
closed-channel checks, a private channel or a ban rejects with exactly
ERR_CANNOTSENDTOCHAN, before either rate limit is consulted; a non-local
sender is never subject to this check (it receives no reply at all). -/
theorem knock_private_or_banned (conf : ConfigChannelT) (now : Nat)
    (is_banned : Channel → Client → Bool) (channels : List Channel)
    (source_p : Client) (name : String) (chptr : Channel)
    (hne : EmptyString (some name) = false)
    (hfind : hash_find_channel channels name = some chptr)
    (hmem : IsMember source_p chptr = false)
    (hclosed : knock_closed chptr = true) :
    (source_p.myClient = true →
      (PrivateChannel chptr || is_banned chptr source_p) = true →
      m_knock conf now is_banned channels source_p (some name)
        = knock_reject channels source_p
            ⟨Numeric.ERR_CANNOTSENDTOCHAN, chptr.chname, none⟩) ∧
    (source_p.myClient = false →
      (m_knock conf now is_banned channels source_p (some name)).replies = []) := by
  constructor
  · intro hmy hpb
    simp [m_knock, hne, hfind, hmem, hclosed, hmy, hpb]
  · intro hmy
    simp [m_knock, hne, hfind, hmem, hclosed, hmy, knock_deliver]

/-- Witness for C6: a concrete local knock on a private channel, with
both rate limits currently armed, still gets ERR_CANNOTSENDTOCHAN. -/
theorem knock_private_or_banned_witness :
    m_knock ⟨5, 5⟩ 0 (fun _ _ => false) [⟨("#w6"), ⟨true, true, "", 0⟩, [], 100⟩]
        ⟨("n6"), "u", "h", true, 100⟩ (some ("#w6"))
      = knock_reject [⟨("#w6"), ⟨true, true, "", 0⟩, [], 100⟩]
          ⟨("n6"), "u", "h", true, 100⟩
          ⟨Numeric.ERR_CANNOTSENDTOCHAN, "#w6", none⟩ :=
  (knock_private_or_banned ⟨5, 5⟩ 0 (fun _ _ => false)
      [⟨("#w6"), ⟨true, true, "", 0⟩, [], 100⟩] ⟨("n6"), "u", "h", true, 100⟩ ("#w6")
      ⟨("#w6"), ⟨true, true, "", 0⟩, [], 100⟩ (by decide) (by decide) (by decide)
      (by decide)).1 rfl (by decide)

/-- C7: every numeric the handler sends to the requesting client is one of
the seven numerics ERR_NEEDMOREPARAMS, ERR_NOSUCHCHANNEL, ERR_KNOCKONCHAN,
ERR_CHANOPEN, ERR_CANNOTSENDTOCHAN, ERR_TOOMANYKNOCK, RPL_KNOCKDLVR. -/
theorem knock_reply_numeric_range (conf : ConfigChannelT) (now : Nat)
    (is_banned : Channel → Client → Bool) (channels : List Channel)
    (source_p : Client) (parv1 : Option String) :
    ∀ r ∈ (m_knock conf now is_banned channels source_p parv1).replies,
      r.numeric = Numeric.ERR_NEEDMOREPARAMS ∨ r.numeric = Numeric.ERR_NOSUCHCHANNEL ∨
      r.numeric = Numeric.ERR_KNOCKONCHAN ∨ r.numeric = Numeric.ERR_CHANOPEN ∨
      r.numeric = Numeric.ERR_CANNOTSENDTOCHAN ∨ r.numeric = Numeric.ERR_TOOMANYKNOCK ∨
      r.numeric = Numeric.RPL_KNOCKDLVR := by
  intro r hr
  rcases m_knock_shape conf now is_banned channels source_p parv1 with
    ⟨r0, heq, hnum⟩ | ⟨chptr, src2, ack, heq, hack⟩
  · rw [heq] at hr
    have : r = r0 := by simpa [knock_reject] using hr
    subst this
    rcases hnum with h | h | h | h | h | h <;> simp [h]
  · rw [heq] at hr
    rcases hack with h | h <;> subst h
    · simp [knock_deliver] at hr
    · have : r = ⟨Numeric.RPL_KNOCKDLVR, chptr.chname, none⟩ := by
        simpa [knock_deliver] using hr
      subst this
      simp

/-- Witness for C7: the reply of a concrete rejected invocation is in the
range. -/
theorem knock_reply_numeric_range_witness :
    (⟨Numeric.ERR_NEEDMOREPARAMS, "KNOCK", none⟩ : Reply).numeric
        = Numeric.ERR_NEEDMOREPARAMS ∨
      (⟨Numeric.ERR_NEEDMOREPARAMS, "KNOCK", none⟩ : Reply).numeric
        = Numeric.ERR_NOSUCHCHANNEL ∨
      (⟨Numeric.ERR_NEEDMOREPARAMS, "KNOCK", none⟩ : Reply).numeric
        = Numeric.ERR_KNOCKONCHAN ∨
      (⟨Numeric.ERR_NEEDMOREPARAMS, "KNOCK", none⟩ : Reply).numeric
        = Numeric.ERR_CHANOPEN ∨
      (⟨Numeric.ERR_NEEDMOREPARAMS, "KNOCK", none⟩ : Reply).numeric
        = Numeric.ERR_CANNOTSENDTOCHAN ∨
      (⟨Numeric.ERR_NEEDMOREPARAMS, "KNOCK", none⟩ : Reply).numeric
        = Numeric.ERR_TOOMANYKNOCK ∨
      (⟨Numeric.ERR_NEEDMOREPARAMS, "KNOCK", none⟩ : Reply).numeric
        = Numeric.RPL_KNOCKDLVR :=
  knock_reply_numeric_range ⟨1, 1⟩ 0 (fun _ _ => false) []
    ⟨("n7"), "u", "h", true, 0⟩ none ⟨Numeric.ERR_NEEDMOREPARAMS, "KNOCK", none⟩
    (by decide)

/-- C8: a non-local sender past the parameter, existence, membership and
closed-channel checks always succeeds: the private/ban check and both
rate limits are skipped (the result is the success tail regardless of
them), the channel's last-knock timestamp is set to the current time, no
acknowledgement is sent, and the sender's own timestamp is untouched. -/
theorem knock_remote_bypasses_checks (conf : ConfigChannelT) (now : Nat)
    (is_banned : Channel → Client → Bool) (channels : List Channel)
    (source_p : Client) (name : String) (chptr : Channel)
    (hne : EmptyString (some name) = false)
    (hfind : hash_find_channel channels name = some chptr)
    (hmem : IsMember source_p chptr = false)
    (hclosed : knock_closed chptr = true)
    (hremote : source_p.myClient = false) :
    m_knock conf now is_banned channels source_p (some name)
      = knock_deliver now channels chptr source_p [] ∧
    (m_knock conf now is_banned channels source_p (some name)).replies = [] ∧
    (m_knock conf now is_banned channels source_p (some name)).source = source_p ∧
    hash_find_channel
        (m_knock conf now is_banned channels source_p (some name)).channels name
      = some { chptr with last_knock := now } := by
  have hrep := hash_find_replaceChannel ({ chptr with last_knock := now }) hfind rfl
  refine ⟨?_, ?_, ?_, ?_⟩
  · simp [m_knock, hne, hfind, hmem, hclosed, hremote]
  · simp [m_knock, hne, hfind, hmem, hclosed, hremote, knock_deliver]
  · simp [m_knock, hne, hfind, hmem, hclosed, hremote, knock_deliver]
  · simpa [m_knock, hne, hfind, hmem, hclosed, hremote, knock_deliver] using hrep

/-- Witness for C8: a concrete remote knock on a private, banned-for-it,
rate-limited channel still succeeds, the channel timestamp moves to the
current time, and the sender's timestamp stays at 50. -/
theorem knock_remote_bypasses_checks_witness :
    m_knock ⟨5, 5⟩ 7 (fun _ _ => true) [⟨("#w8"), ⟨true, true, "k8", 1⟩, ["m8"], 100⟩]
        ⟨("n8"), "u", "h", false, 50⟩ (some ("#w8"))
      = knock_deliver 7 [⟨("#w8"), ⟨true, true, "k8", 1⟩, ["m8"], 100⟩]
          ⟨("#w8"), ⟨true, true, "k8", 1⟩, ["m8"], 100⟩ ⟨("n8"), "u", "h", false, 50⟩ [] ∧
    (m_knock ⟨5, 5⟩ 7 (fun _ _ => true) [⟨("#w8"), ⟨true, true, "k8", 1⟩, ["m8"], 100⟩]
        ⟨("n8"), "u", "h", false, 50⟩ (some ("#w8"))).replies = [] ∧
    (m_knock ⟨5, 5⟩ 7 (fun _ _ => true) [⟨("#w8"), ⟨true, true, "k8", 1⟩, ["m8"], 100⟩]
        ⟨("n8"), "u", "h", false, 50⟩ (some ("#w8"))).source
      = ⟨("n8"), "u", "h", false, 50⟩ ∧
    hash_find_channel (m_knock ⟨5, 5⟩ 7 (fun _ _ => true)
        [⟨("#w8"), ⟨true, true, "k8", 1⟩, ["m8"], 100⟩] ⟨("n8"), "u", "h", false, 50⟩
        (some ("#w8"))).channels ("#w8")
      = some ⟨("#w8"), ⟨true, true, "k8", 1⟩, ["m8"], 7⟩ :=
  knock_remote_bypasses_checks ⟨5, 5⟩ 7 (fun _ _ => true)
    [⟨("#w8"), ⟨true, true, "k8", 1⟩, ["m8"], 100⟩] ⟨("n8"), "u", "h", false, 50⟩ ("#w8")
    ⟨("#w8"), ⟨true, true, "k8", 1⟩, ["m8"], 100⟩ (by decide) (by decide) (by decide)
    (by decide) rfl

end MKnock
